import Mathlib

/-!
Verification of the data normalization and column-resolution pipeline of the
map-chart-tool repository (src/data_loader.py, src/map_chart_tool.py,
src/chart_view.py), as a shallow embedding.

Numbers flowing through the pipeline are decimal strings and the floats parsed
from them; the embedding represents them exactly as decimal rationals
`m * 10 ^ (-e)` (type `Dec`), so every comparison the code performs is decided
exactly.  Python/pandas cell values are the inductive `Cell` (a missing key is
`Cell.null`, a pandas missing value is `Cell.nan`).  File reading is modelled
by a `CsvFile` record carrying the outcome of each of the two attempted
encodings (`none` = that read raises).  Filenames are assumed newline-free and
header/alias text ASCII, matching the repository's data; Python float-string
forms not produced by this pipeline (underscores, inf/nan literals) are not
modelled.
-/

deriving instance DecidableEq for Except

/-- Exact decimal number `m * 10 ^ (-e)`: the value domain of every numeric
comparison the loader performs. -/
structure Dec where
  m : Int
  e : Nat
deriving DecidableEq

instance : LE Dec := ⟨fun a b => a.m * (10 : Int) ^ b.e ≤ b.m * (10 : Int) ^ a.e⟩

instance : LT Dec := ⟨fun a b => a.m * (10 : Int) ^ b.e < b.m * (10 : Int) ^ a.e⟩

instance (a b : Dec) : Decidable (a ≤ b) :=
  inferInstanceAs (Decidable (a.m * (10 : Int) ^ b.e ≤ b.m * (10 : Int) ^ a.e))

instance (a b : Dec) : Decidable (a < b) :=
  inferInstanceAs (Decidable (a.m * (10 : Int) ^ b.e < b.m * (10 : Int) ^ a.e))

instance (n : Nat) : OfNat Dec n := ⟨⟨n, 0⟩⟩

instance : OfScientific Dec :=
  ⟨fun m b e => if b then ⟨m, e⟩ else ⟨(m : Int) * (10 : Int) ^ e, 0⟩⟩

/-- Semantic (value) equality of two decimals, regardless of representation. -/
def decEqv (a b : Dec) : Bool := a.m * (10 : Int) ^ b.e == b.m * (10 : Int) ^ a.e

/-- One pandas cell: a raw string, a parsed number, a pandas missing value
(float nan), or the absence of the key altogether (Python `None`). -/
inductive Cell where
  | null : Cell
  | nan : Cell
  | str : String → Cell
  | num : Dec → Cell
deriving DecidableEq

/-- A calendar date, as `datetime.date`: no time component by construction. -/
structure Date where
  y : Nat
  mo : Nat
  d : Nat
deriving DecidableEq

/-! ## Character and string helpers (ASCII, as the repository's headers) -/

def digitsToNat (l : List Char) : Nat := l.foldl (fun a c => a * 10 + (c.toNat - 48)) 0

def lowerList (s : String) : List Char := s.toList.map Char.toLower

def upperList (s : String) : List Char := s.toList.map Char.toUpper

/-- Python `sorted` order on strings: lexicographic by code point. -/
def charListLt : List Char → List Char → Bool
  | _, [] => false
  | [], _ :: _ => true
  | a :: as, b :: bs => Nat.blt a.toNat b.toNat || (a == b && charListLt as bs)

/-- `fname.lower().endswith('.csv')`. -/
def isCsvName (s : String) : Bool := decide ((".csv".toList) <:+ (s.toList.map Char.toLower))

/-! ## Python float parsing (`float`, `pd.to_numeric`)

Grammar: optional sign, digits with an optional fractional part (at least one
digit overall), optional decimal exponent.  The result is the exact decimal
value; an unparseable string is `none` (`to_numeric(errors="coerce")` makes it
NaN, `float` raises — both end as "absent" for this pipeline). -/

def parseExpDigits (cs : List Char) : Option Int :=
  if cs.isEmpty then none
  else if cs.all Char.isDigit then some (digitsToNat cs : Int) else none

def parseExpNum : List Char → Option Int
  | '+' :: r => parseExpDigits r
  | '-' :: r => (parseExpDigits r).map (fun n => -n)
  | r => parseExpDigits r

def parseExpSuffix : List Char → Option Int
  | [] => some 0
  | 'e' :: r => parseExpNum r
  | 'E' :: r => parseExpNum r
  | _ => none

def applyExp (q : Dec) (e : Int) : Dec :=
  if 0 ≤ e then ⟨q.m * (10 : Int) ^ e.toNat, q.e⟩ else ⟨q.m, q.e + (-e).toNat⟩

def parseFloatUnsigned (cs : List Char) : Option Dec :=
  let ip := cs.takeWhile Char.isDigit
  let r1 := cs.dropWhile Char.isDigit
  match r1 with
  | '.' :: r2 =>
    let fp := r2.takeWhile Char.isDigit
    let r3 := r2.dropWhile Char.isDigit
    if ip.isEmpty && fp.isEmpty then none
    else (parseExpSuffix r3).map
      (applyExp ⟨(digitsToNat ip : Int) * (10 : Int) ^ fp.length + (digitsToNat fp : Int), fp.length⟩)
  | _ => if ip.isEmpty then none else (parseExpSuffix r1).map (applyExp ⟨(digitsToNat ip : Int), 0⟩)

def parseFloat : List Char → Option Dec
  | '+' :: r => parseFloatUnsigned r
  | '-' :: r => (parseFloatUnsigned r).map (fun q => ⟨-q.m, q.e⟩)
  | cs => parseFloatUnsigned cs

/-! ## Numeric coercion: the two implementations named by the spec

`_clean_numeric` (src/chart_view.py) and `coerce_numeric_column`
(src/map_chart_tool.py), per element of the series. -/

/-- The second regex of `_clean_numeric`: `re.sub` of `\.(?=\d{3}(\D|$))` —
drop every dot followed by exactly three digits and then a non-digit or the
end of the string, scanning left to right. -/
def stripDotThousands : List Char → List Char
  | [] => []
  | '.' :: rest =>
    match rest with
    | a :: b :: c :: rest2 =>
      if a.isDigit && b.isDigit && c.isDigit &&
          (match rest2 with | [] => true | d :: _ => !d.isDigit) then
        stripDotThousands rest
      else '.' :: stripDotThousands rest
    | _ => '.' :: stripDotThousands rest
  | ch :: rest => ch :: stripDotThousands rest

/-- `_clean_numeric` (src/chart_view.py lines 10-18): strip every character
outside `[\d.\-]` (note: this removes commas), drop dots that look like
thousands separators, replace remaining commas by dots (a no-op, the commas
are already gone), then `pd.to_numeric(errors="coerce")`. -/
def clean_numeric (s : String) : Option Dec :=
  let s1 := s.toList.filter (fun c => c.isDigit || c == '.' || c == '-')
  let s2 := stripDotThousands s1
  let s3 := s2.map (fun c => if c == ',' then '.' else c)
  parseFloat s3

/-- `coerce_numeric_column` (src/map_chart_tool.py lines 75-89), per element:
strip, remove all whitespace, replace every comma with a dot, then
`pd.to_numeric(errors="coerce")`. -/
def coerce_numeric (s : String) : Option Dec :=
  let s1 := s.toList.filter (fun c => !c.isWhitespace)
  let s2 := s1.map (fun c => if c == ',' then '.' else c)
  parseFloat s2

/-! ## Date resolution (src/data_loader.py lines 17-26 and 69-71)

`_parse_date_from_filename` strips a trailing `.csv` (case-insensitive), then
searches the leftmost match of `(\d{1,2})[^\d](\d{1,2})[^\d](\d{4})` with
Python's greedy backtracking, and accepts it only if `datetime(y, m, d)`
succeeds; otherwise the caller falls back to the file's mtime truncated to a
date (`pd.to_datetime(mtime, unit='s').date()`). -/

/-- The alternatives of greedy `\d{1,2}` at this position, in the order the
regex engine tries them: two digits first, then one. -/
def take12 : List Char → List (Nat × List Char)
  | a :: b :: rest =>
    if a.isDigit && b.isDigit then
      [((a.toNat - 48) * 10 + (b.toNat - 48), rest), (a.toNat - 48, b :: rest)]
    else if a.isDigit then [(a.toNat - 48, b :: rest)]
    else []
  | [a] => if a.isDigit then [(a.toNat - 48, [])] else []
  | [] => []

/-- `[^\d]`: one non-digit character. -/
def sepNonDigit : List Char → Option (List Char)
  | c :: rest => if c.isDigit then none else some rest
  | [] => none

/-- `\d{4}`: four digits (trailing characters unconstrained). -/
def take4 : List Char → Option Nat
  | a :: b :: c :: d :: _ =>
    if a.isDigit && b.isDigit && c.isDigit && d.isDigit then
      some (digitsToNat [a, b, c, d])
    else none
  | _ => none

/-- Match the whole pattern at this position, backtracking over the `\d{1,2}`
alternatives; yields (day, month, year). -/
def matchAt (s : List Char) : Option (Nat × Nat × Nat) :=
  (take12 s).findSome? (fun dayr =>
    (sepNonDigit dayr.2).bind (fun r2 =>
      (take12 r2).findSome? (fun mor =>
        (sepNonDigit mor.2).bind (fun r4 =>
          (take4 r4).map (fun y => (dayr.1, mor.1, y))))))

/-- `re.search`: the leftmost position with a match. -/
def searchPat : List Char → Option (Nat × Nat × Nat)
  | [] => none
  | c :: rest =>
    match matchAt (c :: rest) with
    | some t => some t
    | none => searchPat rest

/-- `re.sub(r'\.csv$', '', fname, flags=re.I)` (filenames without newlines). -/
def stripCsvExt (s : String) : List Char :=
  let cs := s.toList
  if isCsvName s then cs.take (cs.length - 4) else cs

def isLeap (y : Nat) : Bool := y % 4 == 0 && (y % 100 != 0 || y % 400 == 0)

def daysInMonth (y m : Nat) : Nat :=
  if m = 2 then (if isLeap y then 29 else 28)
  else if m = 4 ∨ m = 6 ∨ m = 9 ∨ m = 11 then 30 else 31

/-- `datetime(year, month, day)`: `some` exactly when the constructor does not
raise (year within MINYEAR..MAXYEAR, month and day in range). -/
def mkValidDate (y m d : Nat) : Option Date :=
  if 1 ≤ y ∧ y ≤ 9999 ∧ 1 ≤ m ∧ m ≤ 12 ∧ 1 ≤ d ∧ d ≤ daysInMonth y m then
    some ⟨y, m, d⟩
  else none

/-- Civil-calendar date of an epoch day count (the standard days-to-civil
algorithm; all intermediate quantities are non-negative here). -/
def civilFromDays (z0 : Nat) : Date :=
  let z := z0 + 719468
  let era := z / 146097
  let doe := z % 146097
  let yoe := (doe - doe / 1460 + doe / 36524 - doe / 146096) / 365
  let y := yoe + era * 400
  let doy := doe - (365 * yoe + yoe / 4 - yoe / 100)
  let mp := (5 * doy + 2) / 153
  let d := doy - (153 * mp + 2) / 5 + 1
  let m := if mp < 10 then mp + 3 else mp - 9
  ⟨(if m ≤ 2 then y + 1 else y), m, d⟩

/-- `pd.to_datetime(mtime, unit='s').date()`: the timestamp truncated to a
calendar date. -/
def dateOfTimestamp (t : Nat) : Date := civilFromDays (t / 86400)

def parse_date_from_filename (fname : String) : Option Date :=
  match searchPat (stripCsvExt fname) with
  | some (d, m, y) => mkValidDate y m d
  | none => none

/-- Date resolution as performed once per file in `load_all` (lines 69-71). -/
def resolve_date (fname : String) (mtime : Nat) : Date :=
  (parse_date_from_filename fname).getD (dateOfTimestamp mtime)

/-! ## Column resolution -/

/-- `find_column` (src/map_chart_tool.py lines 61-73), exact phase: the dict
`{c.lower(): c for c in df.columns}` keeps the LAST column for a duplicated
lower-cased spelling, hence the `reverse`. -/
def dictLookup (cols : List String) (cand : String) : Option String :=
  (cols.reverse).find? (fun c => lowerList c == lowerList cand)

/-- `cand.lower() in col.lower()`: case-insensitive substring test. -/
def containsCI (col cand : String) : Bool := decide (lowerList cand <:+: lowerList col)

/-- `find_column(df, candidates)`: case-insensitive exact match over the
candidates in priority order, falling back to the first candidate with a
substring hit, scanning columns in original order. -/
def find_column (cols : List String) (cands : List String) : Option String :=
  match cands.findSome? (fun cand => dictLookup cols cand) with
  | some c => some c
  | none => cands.findSome? (fun cand => cols.find? (fun col => containsCI col cand))

/-- The loader's longitude aliases (src/data_loader.py line 76). -/
def lonAliases : List String := ["toa_do_x", "lon", "longitude", "x"]

/-- The loader's latitude aliases (src/data_loader.py line 80). -/
def latAliases : List String := ["toa_do_y", "lat", "latitude", "y"]

/-- `for cand in [...]: if cand in df.columns: lon_col = cand; break` —
case-sensitive exact membership, no substring fallback. -/
def find_lon_col (cols : List String) : Option String :=
  lonAliases.find? (fun c => cols.contains c)

def find_lat_col (cols : List String) : Option String :=
  latAliases.find? (fun c => cols.contains c)

/-- `_find_index_cols` (src/data_loader.py lines 28-38), for one index name
(the name is already upper-case): collect the columns containing it, prefer an
exact (case-insensitive) match, else the first containing column. -/
def find_index_col (cols : List String) (idx : String) : Option String :=
  let ms := cols.filter (fun c => decide (idx.toList <:+: upperList c))
  match ms.filter (fun c => upperList c == idx.toList) with
  | e :: _ => some e
  | [] => ms.head?

structure IndexColMap where
  lst : Option String
  ndvi : Option String
  tvdi : Option String
deriving DecidableEq

def find_index_cols (cols : List String) : IndexColMap :=
  ⟨find_index_col cols "LST", find_index_col cols "NDVI", find_index_col cols "TVDI"⟩

/-! ## Rows, tables, files -/

/-- One raw row: raw header name to cell, in column order. -/
def RawRow : Type := List (String × Cell)

instance : DecidableEq RawRow := inferInstanceAs (DecidableEq (List (String × Cell)))

/-- `row.get(name)`: the cell, or Python `None` when the key is absent. -/
def rGet (r : RawRow) (name : String) : Cell :=
  ((r.find? (fun kv => kv.1 == name)).map (fun kv => kv.2)).getD Cell.null

/-- `row.get(col)` where `col` may itself be `None`. -/
def rowGetOpt (r : RawRow) (c : Option String) : Cell :=
  match c with
  | some n => rGet r n
  | none => Cell.null

/-- Python truthiness of a cell, as used by the `x or y or None` chains:
`None` and empty strings and `0.0` are falsy, `nan` is truthy. -/
def truthy : Cell → Bool
  | Cell.null => false
  | Cell.nan => true
  | Cell.str s => !s.isEmpty
  | Cell.num q => !(q.m == 0)

/-- `a or b or ... or None`: the first truthy value, else `None`. -/
def orNone (cs : List Cell) : Cell := (cs.find? truthy).getD Cell.null

/-- A parsed CSV table: headers in order, then rows. -/
structure Table where
  cols : List String
  rows : List RawRow
deriving DecidableEq

/-- One directory entry.  `readUtf8`/`readLatin1` are the outcomes of
`pd.read_csv(path, encoding='utf-8-sig')` and `...encoding='latin1'`:
`none` means that read raises. -/
structure CsvFile where
  name : String
  mtime : Nat
  readUtf8 : Option Table
  readLatin1 : Option Table
deriving DecidableEq

/-- A normalized observation: one row of the long-format dataframe. -/
structure Obs where
  maPhuong : Cell
  tenPhuong : Cell
  lon : Dec
  lat : Dec
  date : Date
  ndvi : Cell
  lst : Cell
  tvdi : Cell
  quan : Cell
  landuse : Cell
deriving DecidableEq

abbrev Corpus := List Obs

structure LoaderState where
  dfLong : Option Corpus
  lastLoadedTime : Nat
deriving DecidableEq

/-! ## Coordinate validation and row assembly (src/data_loader.py lines 85-114) -/

/-- `float(x)` on a cell, as used on the coordinate slots: a parsed number or
a numeric string succeeds; `None` (missing column) raises.  A pandas `nan`
converts to float nan, which then fails every bound check below, so the row is
dropped either way; the embedding short-circuits it to `none`. -/
def pyFloat : Cell → Option Dec
  | Cell.num q => some q
  | Cell.str s => parseFloat s.toList
  | Cell.nan => none
  | Cell.null => none

/-- The target bounding box applied after the potential swap (line 97). -/
def validate_target (q : Dec × Dec) : Option (Dec × Dec) :=
  if 10 ≤ q.2 ∧ q.2 ≤ 11.1 ∧ 106 ≤ q.1 ∧ q.1 ≤ 107.2 then some q else none

/-- Lines 95-98: swap once when the latitude slot leaves [8, 12] or the
longitude slot leaves [105, 108], then require the target box. -/
def validate_coords (lon lat : Dec) : Option (Dec × Dec) :=
  validate_target (if lat < 8 ∨ 12 < lat ∨ lon < 105 ∨ 108 < lon then (lat, lon) else (lon, lat))

/-- Lines 86-114: one raw row to at most one observation.  The index cells are
copied raw (`r.get(col_map[...])`, no numeric coercion); the row is emitted
only if both coordinates convert to float and pass validation. -/
def assembleRow (cm : IndexColMap) (lonCol latCol : Option String) (d : Date) (r : RawRow) :
    Option Obs :=
  match pyFloat (rowGetOpt r lonCol), pyFloat (rowGetOpt r latCol) with
  | some lonv, some latv =>
    match validate_coords lonv latv with
    | some q =>
      some { maPhuong := orNone [rGet r "ma_xa", rGet r "MaPhuong"]
             tenPhuong := orNone [rGet r "ten_xa", rGet r "TenPhuong", rGet r "ten_phuong"]
             lon := q.1
             lat := q.2
             date := d
             ndvi := rowGetOpt r cm.ndvi
             lst := rowGetOpt r cm.lst
             tvdi := rowGetOpt r cm.tvdi
             quan := orNone [rGet r "ma_tinh", rGet r "ten_tinh", rGet r "Quan"]
             landuse := orNone [rGet r "loai"] }
    | none => none
  | _, _ => none

/-! ## Corpus assembly and cache (src/data_loader.py lines 40-129) -/

/-- Lines 63-67: try utf-8-sig, on any exception try latin1; a second failure
propagates out of `load_all`. -/
def readCsvFile (f : CsvFile) : Except Unit Table :=
  match f.readUtf8 with
  | some t => Except.ok t
  | none =>
    match f.readLatin1 with
    | some t => Except.ok t
    | none => Except.error ()

/-- One file of the loop body: read, resolve the date once, resolve columns,
assemble rows (invalid rows dropped). -/
def processFile (f : CsvFile) : Except Unit (List Obs) :=
  match readCsvFile f with
  | Except.error e => Except.error e
  | Except.ok t =>
    Except.ok (t.rows.filterMap
      (assembleRow (find_index_cols t.cols) (find_lon_col t.cols) (find_lat_col t.cols)
        (resolve_date f.name f.mtime)))

/-- The `frames` list: per-file row lists, kept only when non-empty
(line 116); the first raised exception aborts the whole loop. -/
def collectFrames : List CsvFile → Except Unit (List (List Obs))
  | [] => Except.ok []
  | f :: fs =>
    match processFile f with
    | Except.error e => Except.error e
    | Except.ok rows =>
      match collectFrames fs with
      | Except.error e => Except.error e
      | Except.ok frames => Except.ok (if rows.isEmpty then frames else rows :: frames)

/-- Insertion sort (a stand-in for `sort_values`; the claims below depend on
the result only up to membership). -/
def insertLe {α : Type} (le : α → α → Bool) (x : α) : List α → List α
  | [] => [x]
  | y :: ys => if le x y then x :: y :: ys else y :: insertLe le x ys

def sortBy {α : Type} (le : α → α → Bool) (l : List α) : List α := l.foldr (insertLe le) []

def dateLe (a b : Date) : Bool :=
  Nat.blt a.y b.y || (a.y == b.y && (Nat.blt a.mo b.mo || (a.mo == b.mo && Nat.ble a.d b.d)))

def cellRank : Cell → Nat
  | Cell.str _ => 0
  | Cell.num _ => 1
  | Cell.nan => 2
  | Cell.null => 3

/-- A fixed total order on cells standing in for pandas sort keys (missing
values last, as `sort_values` places them). -/
def cellLt : Cell → Cell → Bool
  | Cell.str a, Cell.str b => charListLt a.toList b.toList
  | Cell.num a, Cell.num b => decide (a < b)
  | a, b => Nat.blt (cellRank a) (cellRank b)

/-- `sort_values(['TenPhuong', 'Date'])` key order. -/
def obsLe (a b : Obs) : Bool :=
  if cellLt a.tenPhuong b.tenPhuong then true
  else if cellLt b.tenPhuong a.tenPhuong then false
  else dateLe a.date b.date

def sortCorpus (l : List Obs) : List Obs := sortBy obsLe l

/-- `_get_latest_mtime` (lines 40-50): the maximum mtime over the `.csv`
entries, 0 when there are none. -/
def getLatestMtime (files : List CsvFile) : Nat :=
  ((files.filter (fun f => isCsvName f.name)).map (fun f => f.mtime)).foldl max 0

/-- `sorted(os.listdir(...))` followed by the loop's `.csv` filter. -/
def sortedCsvFiles (files : List CsvFile) : List CsvFile :=
  (sortBy (fun a b => !(charListLt b.name.toList a.name.toList)) files).filter
    (fun f => isCsvName f.name)

/-- The rebuild branch (lines 57-127): collect frames, concatenate, sort, and
record the scanned maximum mtime as the new cache token.  An empty `frames`
yields the empty dataframe (line 124). -/
def rebuild (files : List CsvFile) (latest : Nat) : Except Unit (Corpus × LoaderState) :=
  match collectFrames (sortedCsvFiles files) with
  | Except.error e => Except.error e
  | Except.ok frames =>
    Except.ok (sortCorpus frames.flatten, ⟨some (sortCorpus frames.flatten), latest⟩)

/-- `load_all` (lines 52-129): rebuild when forced, when no corpus is cached,
or when the maximum mtime changed; otherwise return the cached corpus and
leave the state untouched. -/
def load_all (files : List CsvFile) (st : LoaderState) (force : Bool) :
    Except Unit (Corpus × LoaderState) :=
  let latest := getLatestMtime files
  if force || st.dfLong.isNone || (latest != st.lastLoadedTime) then
    rebuild files latest
  else
    Except.ok (st.dfLong.getD [], st)

/-! ## Derived read operation (src/data_loader.py lines 136-141) -/

/-- Column access on the long dataframe, by pandas column label (the labels
the code uses; `Date` is carried separately in the `Obs` structure). -/
def obsGetCol (o : Obs) (name : String) : Cell :=
  if name = "MaPhuong" then o.maPhuong
  else if name = "TenPhuong" then o.tenPhuong
  else if name = "Lon" then Cell.num o.lon
  else if name = "Lat" then Cell.num o.lat
  else if name = "NDVI" then o.ndvi
  else if name = "LST" then o.lst
  else if name = "TVDI" then o.tvdi
  else if name = "Quan" then o.quan
  else if name = "Landuse" then o.landuse
  else Cell.null

/-- The projection `[['MaPhuong','TenPhuong','Lon','Lat', index_name, 'Quan',
'Landuse']]` of one observation, as labelled cells in column order. -/
def projectRow (o : Obs) (idx : String) : List (String × Cell) :=
  [("MaPhuong", o.maPhuong), ("TenPhuong", o.tenPhuong), ("Lon", Cell.num o.lon),
   ("Lat", Cell.num o.lat), (idx, obsGetCol o idx), ("Quan", o.quan), ("Landuse", o.landuse)]

/-- `get_values_for_date` on an already-loaded corpus: filter on the date,
project to the identity columns plus the requested index column. -/
def get_values_for_date (dfLong : Corpus) (d : Date) (idx : String) :
    List (List (String × Cell)) :=
  (dfLong.filter (fun o => o.date == d)).map (fun o => projectRow o idx)

/-! ## Concrete fixtures used by witnesses and counterexamples -/

def initState : LoaderState := ⟨none, 0⟩

def cols045 : List String := ["ten_xa", "NDVI", "lon", "lat"]

def row045 : RawRow :=
  [("ten_xa", Cell.str "Xa A"), ("NDVI", Cell.str "0,45"),
   ("lon", Cell.num 106.7), ("lat", Cell.num 10.7)]

def tbl045 : Table := ⟨cols045, [row045]⟩

/-- A file dated by its name, with one valid row whose NDVI cell is the raw
string "0,45". -/
def f045 : CsvFile := ⟨"15-03-2023.csv", 100, some tbl045, none⟩

def date045 : Date := ⟨2023, 3, 15⟩

def obs045 : Obs :=
  { maPhuong := Cell.null, tenPhuong := Cell.str "Xa A", lon := 106.7, lat := 10.7,
    date := date045, ndvi := Cell.str "0,45", lst := Cell.null, tvdi := Cell.null,
    quan := Cell.null, landuse := Cell.null }

def tblNoRows : Table := ⟨["lon", "lat"], []⟩

def fileA : CsvFile := ⟨"a.csv", 5, some tblNoRows, none⟩

/-- `fileA` after its modification time changed from 5 to 7 (below the
directory maximum 10). -/
def fileA7 : CsvFile := ⟨"a.csv", 7, some tblNoRows, none⟩

def fileB : CsvFile := ⟨"b.csv", 10, some tblNoRows, none⟩

/-- A cached corpus marker distinct from anything a rebuild of these fixtures
produces. -/
def dummyObs : Obs :=
  { maPhuong := Cell.null, tenPhuong := Cell.str "Cached", lon := 106.5, lat := 10.5,
    date := ⟨2023, 1, 1⟩, ndvi := Cell.null, lst := Cell.null, tvdi := Cell.null,
    quan := Cell.null, landuse := Cell.null }

def stCached : LoaderState := ⟨some [dummyObs], 10⟩

def tblGood : Table := ⟨["lon", "lat"], [[("lon", Cell.num 106.7), ("lat", Cell.num 10.7)]]⟩

def fGood : CsvFile := ⟨"good.csv", 4, some tblGood, none⟩

/-- A file unreadable under both encodings. -/
def fBad : CsvFile := ⟨"bad.csv", 9, none, none⟩

def goodObs : Obs :=
  { maPhuong := Cell.null, tenPhuong := Cell.null, lon := 106.7, lat := 10.7,
    date := ⟨1970, 1, 1⟩, ndvi := Cell.null, lst := Cell.null, tvdi := Cell.null,
    quan := Cell.null, landuse := Cell.null }

/-- The in-region predicate of the target bounding box (line 97). -/
def inRegion (o : Obs) : Prop :=
  10 ≤ o.lat ∧ o.lat ≤ 11.1 ∧ 106 ≤ o.lon ∧ o.lon ≤ 107.2

/-! ## Helper lemmas -/

theorem insertLe_perm {α : Type} (le : α → α → Bool) (x : α) (l : List α) :
    (insertLe le x l).Perm (x :: l) := by
  induction l with
  | nil => exact List.Perm.refl _
  | cons y ys ih =>
    cases h : le x y with
    | true => simp only [insertLe, h, if_true]; exact List.Perm.refl _
    | false =>
      simp only [insertLe, h, Bool.false_eq_true, if_false]
      exact (ih.cons y).trans (List.Perm.swap x y ys)

theorem sortBy_perm {α : Type} (le : α → α → Bool) (l : List α) : (sortBy le l).Perm l := by
  induction l with
  | nil => exact List.Perm.refl []
  | cons x xs ih => exact (insertLe_perm le x (sortBy le xs)).trans (ih.cons x)

theorem mem_sortBy {α : Type} {le : α → α → Bool} {a : α} {l : List α} :
    a ∈ sortBy le l ↔ a ∈ l :=
  (sortBy_perm le l).mem_iff

theorem validate_target_eq {q p : Dec × Dec} (h : validate_target q = some p) :
    p = q ∧ 10 ≤ p.2 ∧ p.2 ≤ 11.1 ∧ 106 ≤ p.1 ∧ p.1 ≤ 107.2 := by
  unfold validate_target at h
  split at h
  · injection h with h
    subst h
    exact ⟨rfl, by assumption⟩
  · cases h

theorem validate_coords_bounds {lon lat : Dec} {p : Dec × Dec}
    (h : validate_coords lon lat = some p) :
    10 ≤ p.2 ∧ p.2 ≤ 11.1 ∧ 106 ≤ p.1 ∧ p.1 ≤ 107.2 := by
  unfold validate_coords at h
  exact (validate_target_eq h).2

theorem assembleRow_inRegion {cm : IndexColMap} {lonCol latCol : Option String} {d : Date}
    {r : RawRow} {o : Obs} (h : assembleRow cm lonCol latCol d r = some o) : inRegion o := by
  unfold assembleRow at h
  split at h
  · rename_i lonv latv _ _
    cases hv : validate_coords lonv latv with
    | none => rw [hv] at h; cases h
    | some q =>
      rw [hv] at h
      injection h with h
      subst h
      exact validate_coords_bounds hv
  · cases h

theorem processFile_inRegion {f : CsvFile} {rows : List Obs}
    (h : processFile f = Except.ok rows) : ∀ o ∈ rows, inRegion o := by
  unfold processFile at h
  split at h
  · cases h
  · injection h with h
    subst h
    intro o ho
    obtain ⟨r, _, ha⟩ := List.mem_filterMap.mp ho
    exact assembleRow_inRegion ha

theorem collectFrames_inRegion {l : List CsvFile} {frames : List (List Obs)}
    (h : collectFrames l = Except.ok frames) : ∀ rows ∈ frames, ∀ o ∈ rows, inRegion o := by
  induction l generalizing frames with
  | nil =>
    unfold collectFrames at h
    injection h with h
    subst h
    intro rows hr
    cases hr
  | cons f fs ih =>
    unfold collectFrames at h
    split at h
    · cases h
    · rename_i rows1 hp
      split at h
      · cases h
      · rename_i frames2 hc
        injection h with h
        subst h
        intro rows hmem o ho
        split at hmem
        · exact ih hc rows hmem o ho
        · rcases List.mem_cons.mp hmem with rfl | hmem2
          · exact processFile_inRegion hp o ho
          · exact ih hc rows hmem2 o ho

theorem collectFrames_error {l : List CsvFile} (f : CsvFile) (hf : f ∈ l)
    (he : readCsvFile f = Except.error ()) : collectFrames l = Except.error () := by
  induction l with
  | nil => cases hf
  | cons g gs ih =>
    rcases List.mem_cons.mp hf with rfl | hmem
    · unfold collectFrames processFile
      rw [he]
    · unfold collectFrames
      cases hp : processFile g with
      | error e => cases e; rfl
      | ok rows => rw [ih hmem]

theorem load_all_rebuilds {files : List CsvFile} {st : LoaderState} {force : Bool}
    (h : force = true ∨ st.dfLong = none ∨ getLatestMtime files ≠ st.lastLoadedTime) :
    load_all files st force = rebuild files (getLatestMtime files) := by
  have hc : (force || st.dfLong.isNone || (getLatestMtime files != st.lastLoadedTime)) = true := by
    rcases h with h | h | h
    · simp [h]
    · simp [h]
    · simp [bne_iff_ne, h]
  simp only [load_all, hc, if_true]

theorem load_all_cached {files : List CsvFile} {st : LoaderState} {c : Corpus}
    (hc : st.dfLong = some c) (ht : getLatestMtime files = st.lastLoadedTime) :
    load_all files st false = Except.ok (c, st) := by
  have h1 : st.dfLong.isNone = false := by rw [hc]; rfl
  have h2 : (getLatestMtime files != st.lastLoadedTime) = false := by rw [ht]; simp
  simp [load_all, h1, h2, hc]

/-! ## The claims -/

/-- C1: every normalized observation a rebuild emits has in-bounds
coordinates — whenever `load_all` actually rebuilds (forced, no cache, or a
changed mtime token) and succeeds, every observation of the returned corpus
satisfies lat in [10, 11.1] and lon in [106, 107.2]; the out-of-region pair
(50, 50) is rejected outright, and a concrete valid file demonstrates the
rebuild path is not vacuous. -/
theorem c1_observations_in_bounds :
    (∀ (files : List CsvFile) (st : LoaderState) (force : Bool) (c : Corpus)
        (st2 : LoaderState),
        (force = true ∨ st.dfLong = none ∨ getLatestMtime files ≠ st.lastLoadedTime) →
        load_all files st force = Except.ok (c, st2) → ∀ o ∈ c, inRegion o) ∧
    validate_coords 50 50 = none ∧
    load_all [f045] initState true = Except.ok ([obs045], ⟨some [obs045], 100⟩) := by
  refine ⟨?_, by decide, by decide⟩
  intro files st force c st2 hcond hload o ho
  rw [load_all_rebuilds hcond] at hload
  unfold rebuild at hload
  split at hload
  · cases hload
  · rename_i frames hcf
    injection hload with hload
    have hc : c = sortCorpus frames.flatten := (congrArg Prod.fst hload).symm
    subst hc
    obtain ⟨rows, hrows, ho2⟩ :=
      List.mem_flatten.mp ((@mem_sortBy Obs obsLe o frames.flatten).mp ho)
    exact collectFrames_inRegion hcf rows hrows o ho2

/-- C2 counterexample: on the European grouped string "1.234,56" neither
numeric-coercion implementation returns 1234.56 — `_clean_numeric` strips the
comma as a non-numeric character first and yields 1.23456, and
`coerce_numeric_column` turns the string into the unparseable "1.234.56"
(NaN). -/
theorem c2_counterexample_european_group :
    clean_numeric "1.234,56" = some ⟨123456, 5⟩ ∧
    decEqv ⟨123456, 5⟩ ⟨123456, 2⟩ = false ∧
    (1234.56 : Dec) = ⟨123456, 2⟩ ∧
    coerce_numeric "1.234,56" = none := by decide

/-- C2 (amended): the canonical "123.45" parses to 123.45 under both
implementations; on "1.234,56", `_clean_numeric` first strips every character
that is not a digit, dot or minus (commas included), then treats a dot
followed by exactly three digits and a non-digit-or-end as a thousands
separator, yielding 1.23456 (not 1234.56), while `coerce_numeric_column`
replaces every comma by a dot and coerces the resulting "1.234.56" to NaN
(absent); the dot-thousands rule is visible on "1.234", which parses to
1234. -/
theorem c2_numeric_coercion_actual :
    clean_numeric "123.45" = some ⟨12345, 2⟩ ∧
    coerce_numeric "123.45" = some ⟨12345, 2⟩ ∧
    (123.45 : Dec) = ⟨12345, 2⟩ ∧
    clean_numeric "1.234" = some ⟨1234, 0⟩ ∧
    clean_numeric "1.234,56" = some ⟨123456, 5⟩ ∧
    decEqv ⟨123456, 5⟩ (1234.56 : Dec) = false ∧
    coerce_numeric "1.234,56" = none := by decide

/-- C3 counterexample: the loader's row assembly does not coerce the index
cells — a file whose NDVI cell holds the string "0,45" produces an
observation whose NDVI field is still the raw string "0,45", not the float
0.45. -/
theorem c3_counterexample_raw_string_ndvi :
    processFile f045 = Except.ok [obs045] ∧
    obs045.ndvi = Cell.str "0,45" ∧
    obs045.ndvi ≠ Cell.num (0.45 : Dec) := by decide

/-- C3 (amended): row assembly copies the NDVI/LST/TVDI cells raw
(`r.get(col_map[...])`, no numeric coercion); each emitted observation's
index fields are exactly the raw resolved cells of its source row. -/
theorem c3_indices_copied_raw :
    ∀ (cm : IndexColMap) (lonCol latCol : Option String) (d : Date) (r : RawRow) (o : Obs),
      assembleRow cm lonCol latCol d r = some o →
      o.ndvi = rowGetOpt r cm.ndvi ∧ o.lst = rowGetOpt r cm.lst ∧
        o.tvdi = rowGetOpt r cm.tvdi := by
  intro cm lonCol latCol d r o h
  unfold assembleRow at h
  split at h
  · rename_i lonv latv _ _
    cases hv : validate_coords lonv latv with
    | none => rw [hv] at h; cases h
    | some q =>
      rw [hv] at h
      injection h with h
      subst h
      exact ⟨rfl, rfl, rfl⟩
  · cases h

/-- C3 witness: the amended statement at the concrete fixture file. -/
theorem c3_witness :
    obs045.ndvi = rowGetOpt row045 (find_index_cols cols045).ndvi ∧
    obs045.lst = rowGetOpt row045 (find_index_cols cols045).lst ∧
    obs045.tvdi = rowGetOpt row045 (find_index_cols cols045).tvdi :=
  c3_indices_copied_raw (find_index_cols cols045) (find_lon_col cols045) (find_lat_col cols045)
    date045 row045 obs045 (by decide)

/-- C4 counterexample: changing a source file's modification time does NOT by
itself trigger a rebuild — `a.csv` moves from mtime 5 to 7 while `b.csv`
stays at 10, the directory maximum (and hence the cache token check) is
unchanged, and `load_all` returns the stale cached corpus untouched, although
a forced rebuild of the same directory yields a different (empty) corpus. -/
theorem c4_counterexample_mtime_change_no_rebuild :
    fileA7.mtime ≠ fileA.mtime ∧
    getLatestMtime [fileA, fileB] = 10 ∧
    getLatestMtime [fileA7, fileB] = 10 ∧
    load_all [fileA7, fileB] stCached false = Except.ok ([dummyObs], stCached) ∧
    load_all [fileA7, fileB] stCached true = Except.ok ([], ⟨some [], 10⟩) := by decide

/-- C4 (amended): with a cached corpus and force false, `load_all` returns
the identical cached corpus and state when the directory's maximum mtime
equals the recorded token, and rebuilds from scratch — recording the new
maximum as the token — exactly when the maximum mtime differs from the
token (not merely when some file's mtime changed). -/
theorem c4_cache_token_behavior :
    ∀ (files : List CsvFile) (st : LoaderState) (c : Corpus),
      st.dfLong = some c →
      (getLatestMtime files = st.lastLoadedTime →
        load_all files st false = Except.ok (c, st)) ∧
      (getLatestMtime files ≠ st.lastLoadedTime →
        load_all files st false = rebuild files (getLatestMtime files) ∧
        ∀ (c2 : Corpus) (st2 : LoaderState),
          load_all files st false = Except.ok (c2, st2) →
          st2.lastLoadedTime = getLatestMtime files ∧ st2.dfLong = some c2) := by
  intro files st c hc
  constructor
  · intro ht
    exact load_all_cached hc ht
  · intro hne
    have hr := @load_all_rebuilds files st false (Or.inr (Or.inr hne))
    refine ⟨hr, ?_⟩
    intro c2 st2 h2
    rw [hr] at h2
    unfold rebuild at h2
    split at h2
    · cases h2
    · injection h2 with h2
      have h2a : c2 = sortCorpus _ := (congrArg Prod.fst h2).symm
      have h2b : st2 = ⟨some (sortCorpus _), getLatestMtime files⟩ :=
        (congrArg Prod.snd h2).symm
      subst h2a
      subst h2b
      exact ⟨rfl, rfl⟩

/-- C4 witness: the amended statement at the concrete cached loader. -/
theorem c4_witness :
    (getLatestMtime [fileA, fileB] = stCached.lastLoadedTime →
      load_all [fileA, fileB] stCached false = Except.ok ([dummyObs], stCached)) ∧
    (getLatestMtime [fileA, fileB] ≠ stCached.lastLoadedTime →
      load_all [fileA, fileB] stCached false =
        rebuild [fileA, fileB] (getLatestMtime [fileA, fileB]) ∧
      ∀ (c2 : Corpus) (st2 : LoaderState),
        load_all [fileA, fileB] stCached false = Except.ok (c2, st2) →
        st2.lastLoadedTime = getLatestMtime [fileA, fileB] ∧ st2.dfLong = some c2) :=
  c4_cache_token_behavior [fileA, fileB] stCached [dummyObs] rfl

/-- C5 counterexample: a file failing under both encodings does NOT merely
lose its own contribution — it aborts the whole load call: alone, `good.csv`
loads one observation, but with unreadable `bad.csv` in the directory the
same call returns the error and no corpus at all. -/
theorem c5_counterexample_double_failure_aborts :
    load_all [fGood] initState false = Except.ok ([goodObs], ⟨some [goodObs], 4⟩) ∧
    load_all [fGood, fBad] initState false = Except.error () := by decide

/-- C5 (amended): a file unreadable under the primary encoding (utf-8-sig)
is retried under the secondary (latin1) and its table is used when that
succeeds; but a file failing under BOTH encodings propagates its exception
and aborts the entire rebuild — it is not skipped, and the other files'
contributions are lost for that call. -/
theorem c5_encoding_fallback_and_abort :
    (∀ (f : CsvFile) (t : Table),
      f.readUtf8 = none → f.readLatin1 = some t → readCsvFile f = Except.ok t) ∧
    (∀ (files : List CsvFile) (st : LoaderState) (force : Bool),
      (force = true ∨ st.dfLong = none ∨ getLatestMtime files ≠ st.lastLoadedTime) →
      (∃ f, f ∈ sortedCsvFiles files ∧ readCsvFile f = Except.error ()) →
      load_all files st force = Except.error ()) := by
  constructor
  · intro f t h1 h2
    unfold readCsvFile
    rw [h1, h2]
  · rintro files st force hcond ⟨f, hf, he⟩
    rw [load_all_rebuilds hcond]
    unfold rebuild
    rw [collectFrames_error f hf he]

/-- C6: coordinate validation is order-insensitive on the in-region pair —
with latitude and longitude supplied in reversed slots the single swap
recovers them, and both orders accept the same pair (lon 106.7, lat 10.7). -/
theorem c6_swap_order_insensitive :
    validate_coords 10.7 106.7 = some (106.7, 10.7) ∧
    validate_coords 106.7 10.7 = some (106.7, 10.7) := by decide

theorem find?_eq_head?_filter {α : Type} (p : α → Bool) (l : List α) :
    l.find? p = (l.filter p).head? := by
  induction l with
  | nil => rfl
  | cons x xs ih =>
    rw [List.find?_cons, List.filter_cons]
    cases h : p x with
    | true => rfl
    | false =>
      simp only [Bool.false_eq_true, if_false]
      exact ih

theorem findSome?_append_none {α β : Type} (f : α → Option β) (pre rest : List α)
    (h : ∀ c ∈ pre, f c = none) :
    (pre ++ rest).findSome? f = rest.findSome? f := by
  induction pre with
  | nil => rfl
  | cons x xs ih =>
    rw [List.cons_append, List.findSome?_cons, h x (List.mem_cons_self x xs)]
    exact ih (fun c hc => h c (List.mem_cons_of_mem x hc))

/-- The dict comprehension of `find_column` keeps the last duplicate, so its
lookup yields the LAST column whose case-folded spelling equals the alias. -/
theorem dictLookup_getLast (cols : List String) (cand : String) :
    dictLookup cols cand =
      (cols.filter (fun col => lowerList col == lowerList cand)).getLast? := by
  unfold dictLookup
  rw [find?_eq_head?_filter, List.filter_reverse, List.head?_reverse]

theorem dictLookup_eq_none {cols : List String} {c : String}
    (h : ∀ col ∈ cols, lowerList col ≠ lowerList c) : dictLookup cols c = none := by
  apply List.find?_eq_none.mpr
  intro col hcol hbeq
  exact h col (List.mem_reverse.mp hcol) (eq_of_beq hbeq)

theorem find_column_exact_some {cols cands : List String} {b : String}
    (h : cands.findSome? (fun c => dictLookup cols c) = some b) :
    find_column cols cands = some b := by
  unfold find_column
  rw [h]

theorem find_column_exact_none {cols cands : List String}
    (h : cands.findSome? (fun c => dictLookup cols c) = none) :
    find_column cols cands =
      cands.findSome? (fun cand => cols.find? (fun col => containsCI col cand)) := by
  unfold find_column
  rw [h]

/-- C7 counterexample: two concrete deviations from the claim. (i) Column
resolution is not case-insensitive for the loader's longitude/latitude
fields: the header "Longitude" is a case-insensitive match for the alias
"longitude" (as `find_column` shows), yet the loader's `find_lon_col`
resolves it to absent, because its lookup is case-sensitive exact
membership.  (ii) `find_column`'s exact phase does not pick the first
qualifying header in original column order: on headers ["NDVI", "ndvi"] with
alias "ndvi" it resolves to the second header "ndvi", not the first
qualifying header "NDVI" (the dict comprehension keeps the last duplicate). -/
theorem c7_counterexample_resolution :
    find_lon_col ["Longitude"] = none ∧
    find_column ["Longitude"] lonAliases = some "Longitude" ∧
    find_lat_col ["Latitude"] = none ∧
    find_column ["NDVI", "ndvi"] ["ndvi"] = some "ndvi" ∧
    find_column ["NDVI", "ndvi"] ["ndvi"] ≠ some "NDVI" := by decide

/-- C7 (amended): a complete characterization of both resolution routines.
`find_column` (map_chart_tool) matches case-insensitively and prefers exact
matches over substring matches: for the first alias in priority order that
has an exact case-folded header match (all aliases before it matching no
header exactly), it returns the LAST header sharing that alias's case-folded
spelling; when no alias matches any header exactly, for the first alias with
a substring hit it returns the first header (in original column order)
containing that alias; and it resolves to absent exactly when no alias
occurs in any header even as a substring.  The loader's own
longitude/latitude resolution is instead case-sensitive exact membership:
it returns the first alias of its priority list that occurs literally among
the headers, with no case folding and no substring fallback, and is absent
exactly when no alias is literally present. -/
theorem c7_column_resolution :
    (∀ (cols pre post : List String) (cand : String),
      (∀ c ∈ pre, ∀ col ∈ cols, lowerList col ≠ lowerList c) →
      (∃ col ∈ cols, lowerList col = lowerList cand) →
      find_column cols (pre ++ cand :: post) =
        (cols.filter (fun col => lowerList col == lowerList cand)).getLast?) ∧
    (∀ (cols pre post : List String) (cand : String),
      (∀ c ∈ pre ++ cand :: post, ∀ col ∈ cols, lowerList col ≠ lowerList c) →
      (∀ c ∈ pre, ∀ col ∈ cols, containsCI col c = false) →
      (∃ col ∈ cols, containsCI col cand = true) →
      find_column cols (pre ++ cand :: post) =
        (cols.filter (fun col => containsCI col cand)).head?) ∧
    (∀ (cols cands : List String),
      (find_column cols cands = none ↔
        ∀ c ∈ cands, ∀ col ∈ cols, containsCI col c = false)) ∧
    (∀ (cols : List String),
      find_lon_col cols = (lonAliases.filter (fun c => cols.contains c)).head?) ∧
    (∀ (cols : List String),
      find_lat_col cols = (latAliases.filter (fun c => cols.contains c)).head?) ∧
    (∀ (cols : List String),
      find_lon_col cols = none ↔ ∀ c ∈ lonAliases, cols.contains c = false) ∧
    (∀ (cols : List String),
      find_lat_col cols = none ↔ ∀ c ∈ latAliases, cols.contains c = false) := by
  refine ⟨?_, ?_, ?_, ?_, ?_, ?_, ?_⟩
  · rintro cols pre post cand hpre ⟨col, hcol, heq⟩
    have h1 : ∀ c ∈ pre, dictLookup cols c = none := fun c hc => dictLookup_eq_none (hpre c hc)
    have h2 := findSome?_append_none (fun c => dictLookup cols c) pre (cand :: post) h1
    cases hdl : dictLookup cols cand with
    | none =>
      exfalso
      have hdl2 : (cols.reverse).find? (fun c2 => lowerList c2 == lowerList cand) = none := hdl
      exact List.find?_eq_none.mp hdl2 col (List.mem_reverse.mpr hcol)
        (by rw [heq]; exact beq_self_eq_true _)
    | some b =>
      have h3 : (cand :: post).findSome? (fun c => dictLookup cols c) = some b := by
        rw [List.findSome?_cons, hdl]
      rw [find_column_exact_some (h2.trans h3), ← dictLookup_getLast, hdl]
  · rintro cols pre post cand hnoex hpre ⟨col, hcol, hci⟩
    have h1 : (pre ++ cand :: post).findSome? (fun c => dictLookup cols c) = none :=
      List.findSome?_eq_none_iff.mpr (fun c hc => dictLookup_eq_none (hnoex c hc))
    have h2 : ∀ c ∈ pre, cols.find? (fun col2 => containsCI col2 c) = none := by
      intro c hc
      apply List.find?_eq_none.mpr
      intro col2 hcol2 hci2
      rw [hpre c hc col2 hcol2] at hci2
      cases hci2
    have h3 := findSome?_append_none (fun c => cols.find? (fun col2 => containsCI col2 c)) pre
      (cand :: post) h2
    cases hfind : cols.find? (fun col2 => containsCI col2 cand) with
    | none => exact absurd hci (List.find?_eq_none.mp hfind col hcol)
    | some b =>
      have h4 : (cand :: post).findSome? (fun c => cols.find? (fun col2 => containsCI col2 c))
          = some b := by
        rw [List.findSome?_cons, hfind]
      rw [find_column_exact_none h1, h3, h4, ← find?_eq_head?_filter, hfind]
  · intro cols cands
    constructor
    · intro h
      have h1 : cands.findSome? (fun cand => dictLookup cols cand) = none := by
        cases he : cands.findSome? (fun cand => dictLookup cols cand) with
        | some b => unfold find_column at h; rw [he] at h; cases h
        | none => rfl
      have h2 : cands.findSome? (fun cand => cols.find? (fun col => containsCI col cand))
          = none := by
        unfold find_column at h
        rw [h1] at h
        exact h
      intro c hc col hcol
      have hn := List.find?_eq_none.mp (List.findSome?_eq_none_iff.mp h2 c hc) col hcol
      cases hb : containsCI col c with
      | false => rfl
      | true => exact absurd hb hn
    · intro hall
      have h1 : cands.findSome? (fun cand => dictLookup cols cand) = none := by
        refine List.findSome?_eq_none_iff.mpr ?_
        intro cand hcand
        refine dictLookup_eq_none ?_
        intro col hcol heq
        have hci : containsCI col cand = true := by
          unfold containsCI
          rw [heq]
          exact decide_eq_true (List.infix_refl _)
        rw [hall cand hcand col hcol] at hci
        cases hci
      have h2 : cands.findSome? (fun cand => cols.find? (fun col => containsCI col cand))
          = none := by
        refine List.findSome?_eq_none_iff.mpr ?_
        intro cand hcand
        refine List.find?_eq_none.mpr ?_
        intro col hcol hci
        rw [hall cand hcand col hcol] at hci
        cases hci
      rw [find_column_exact_none h1]
      exact h2
  · intro cols
    exact find?_eq_head?_filter _ _
  · intro cols
    exact find?_eq_head?_filter _ _
  · intro cols
    unfold find_lon_col
    rw [List.find?_eq_none]
    constructor
    · intro h c hc
      cases hb : cols.contains c with
      | false => rfl
      | true => exact absurd hb (h c hc)
    · intro h c hc hb
      rw [h c hc] at hb
      cases hb
  · intro cols
    unfold find_lat_col
    rw [List.find?_eq_none]
    constructor
    · intro h c hc
      cases hb : cols.contains c with
      | false => rfl
      | true => exact absurd hb (h c hc)
    · intro h c hc hb
      rw [h c hc] at hb
      cases hb

/-- C8 counterexample: `get_values_for_date` projects to the identity columns
plus the requested index column ONLY — for the requested field NDVI the
returned columns are [MaPhuong, TenPhuong, Lon, Lat, NDVI, Quan, Landuse];
the other two index fields LST and TVDI are not in the projection. -/
theorem c8_counterexample_projection :
    get_values_for_date [obs045] date045 "NDVI" = [projectRow obs045 "NDVI"] ∧
    (projectRow obs045 "NDVI").map Prod.fst =
      ["MaPhuong", "TenPhuong", "Lon", "Lat", "NDVI", "Quan", "Landuse"] ∧
    ¬ ("LST" ∈ (projectRow obs045 "NDVI").map Prod.fst) ∧
    ¬ ("TVDI" ∈ (projectRow obs045 "NDVI").map Prod.fst) := by decide

/-- C8 (amended): `values_for_date(date, field)` returns exactly the
observations whose date equals the given date, each projected to the identity
columns (region code, region name, coordinates, parent region, land use) plus
the requested index field only — not the other two index fields. -/
theorem c8_values_for_date :
    (∀ (df : Corpus) (d : Date) (idx : String) (row : List (String × Cell)),
      row ∈ get_values_for_date df d idx ↔
        ∃ o, o ∈ df ∧ o.date = d ∧ row = projectRow o idx) ∧
    (∀ (o : Obs) (idx : String),
      (projectRow o idx).map Prod.fst =
        ["MaPhuong", "TenPhuong", "Lon", "Lat", idx, "Quan", "Landuse"]) := by
  constructor
  · intro df d idx row
    unfold get_values_for_date
    constructor
    · intro h
      obtain ⟨o, ho, hrow⟩ := List.mem_map.mp h
      have hf := List.mem_filter.mp ho
      exact ⟨o, hf.1, eq_of_beq hf.2, hrow.symm⟩
    · rintro ⟨o, ho, hd, rfl⟩
      exact List.mem_map.mpr ⟨o, List.mem_filter.mpr ⟨ho, by rw [hd]; exact beq_self_eq_true _⟩, rfl⟩
  · intro o idx
    rfl

/-- C9: date resolution is total — for every filename and mtime it produces a
calendar date: the leftmost day-month-4-digit-year pattern of the filename
when those numbers form a valid date, else the mtime truncated to a date;
concretely "15-03-2023.csv" resolves to 2023-03-15 and "garbage.csv" with
mtime 90000 to 1970-01-02. -/
theorem c9_date_resolution_total :
    (∀ (fname : String) (mtime : Nat),
      (∃ d m y, searchPat (stripCsvExt fname) = some (d, m, y) ∧
        mkValidDate y m d = some (resolve_date fname mtime)) ∨
      (parse_date_from_filename fname = none ∧
        resolve_date fname mtime = dateOfTimestamp mtime)) ∧
    resolve_date "15-03-2023.csv" 0 = ⟨2023, 3, 15⟩ ∧
    resolve_date "garbage.csv" 90000 = ⟨1970, 1, 2⟩ := by
  refine ⟨?_, by decide, by decide⟩
  intro fname mtime
  cases h : searchPat (stripCsvExt fname) with
  | none =>
    right
    constructor
    · simp [parse_date_from_filename, h]
    · simp [resolve_date, parse_date_from_filename, h]
  | some t =>
    obtain ⟨d, m, y⟩ := t
    cases h2 : mkValidDate y m d with
    | none =>
      right
      constructor
      · simp [parse_date_from_filename, h, h2]
      · simp [resolve_date, parse_date_from_filename, h, h2]
    | some dt =>
      left
      refine ⟨d, m, y, rfl, ?_⟩
      simp [resolve_date, parse_date_from_filename, h, h2]

/-- C10: a rebuild in which no file contributes a valid row sets the corpus
to the empty dataset (`some []`, not `none`, not an error) and still records
the scanned maximum mtime as the cache token, so a subsequent unforced load
with unchanged files returns that cached empty dataset. -/
theorem c10_empty_rebuild_caches_empty :
    ∀ (files : List CsvFile) (st : LoaderState) (force : Bool),
      (force = true ∨ st.dfLong = none ∨ getLatestMtime files ≠ st.lastLoadedTime) →
      collectFrames (sortedCsvFiles files) = Except.ok [] →
      load_all files st force = Except.ok ([], ⟨some [], getLatestMtime files⟩) ∧
      load_all files ⟨some [], getLatestMtime files⟩ false =
        Except.ok ([], ⟨some [], getLatestMtime files⟩) := by
  intro files st force hcond hempty
  constructor
  · rw [load_all_rebuilds hcond]
    unfold rebuild
    rw [hempty]
    rfl
  · exact load_all_cached rfl rfl

/-- C10 witness: the statement at a directory whose single file parses but
contributes no rows. -/
theorem c10_witness :
    load_all [fileA] initState false = Except.ok ([], ⟨some [], getLatestMtime [fileA]⟩) ∧
    load_all [fileA] ⟨some [], getLatestMtime [fileA]⟩ false =
      Except.ok ([], ⟨some [], getLatestMtime [fileA]⟩) :=
  c10_empty_rebuild_caches_empty [fileA] initState false (Or.inr (Or.inl rfl)) (by decide)
